import Mathlib

/-!
Verification of the sport_tennis prediction core.

Shallow embedding of the data-to-model pipeline of the `sport_tennis`
repository: the match-record normalizer (`TennisDataPreprocessor.clean_matches`),
the symmetric feature augmentation (`TennisDataPreprocessor.prepare_for_ml`),
the outcome-model state machine (`MatchPredictor`), the player directory
(`HeadToHeadPredictor.load_player_database` / `get_player_info`) and the
rule-based explanation engine (`HeadToHeadPredictor._create_explanation`).

Numeric cell values are modelled as rationals (`ℚ`); a pandas `NaN` cell is
modelled as `Option.none`.  A data frame is a list of rows; a feature frame
row is an ordered association list of (column name, value) pairs, which keeps
the column order of the source's dict literals observable.  Columns that no
verified property reads (dates, round codes, serve statistics, `is_carpet`,
`is_atp500`, `round_num`, `same_hand` consumers) are modelled only where the
source writes them into the frame that the claims inspect.
-/

namespace SportTennis

/-- A raw match row as loaded from the ATP csv feed: the columns read by
`clean_matches`, `create_player_features`, `create_match_features`,
`prepare_for_ml` and `load_player_database`.  `none` models a NaN cell.
Date and round columns are omitted: no verified property reads them. -/
structure MatchRow where
  winner_name : Option String := none
  loser_name : Option String := none
  winner_rank : Option ℚ := none
  loser_rank : Option ℚ := none
  winner_age : Option ℚ := none
  loser_age : Option ℚ := none
  winner_ht : Option ℚ := none
  loser_ht : Option ℚ := none
  winner_hand : Option String := none
  loser_hand : Option String := none
  surface : Option String := none
  tourney_level : Option String := none
  -- derived feature columns, absent (`none`) until the pipeline writes them
  rank_diff : Option ℚ := none
  age_diff : Option ℚ := none
  height_diff : Option ℚ := none
  same_hand : Option ℚ := none
  is_hard : Option ℚ := none
  is_clay : Option ℚ := none
  is_grass : Option ℚ := none
  is_carpet : Option ℚ := none
  is_grand_slam : Option ℚ := none
  is_masters : Option ℚ := none
  is_atp500 : Option ℚ := none
deriving DecidableEq

/-- Insert a value into an already-sorted list (ascending). -/
def insertSorted (x : ℚ) : List ℚ → List ℚ
  | [] => [x]
  | y :: t => if x ≤ y then x :: y :: t else y :: insertSorted x t

/-- Sort ascending (insertion sort). -/
def sortRats (xs : List ℚ) : List ℚ := xs.foldr insertSorted []

/-- Pandas `Series.median`: drop the NaN cells, sort, return the middle
element (odd count) or the mean of the two middle elements (even count);
`none` on an empty (all-NaN) column. -/
def median (xs : List ℚ) : Option ℚ :=
  let s := sortRats xs
  let n := s.length
  if n = 0 then none
  else if n % 2 = 1 then s.get? (n / 2)
  else
    match s.get? (n / 2 - 1), s.get? (n / 2) with
    | some a, some b => some ((a + b) / 2)
    | _, _ => none

/-- Median of one column over the whole current batch. -/
def colMedian (df : List MatchRow) (col : MatchRow → Option ℚ) : Option ℚ :=
  median (df.filterMap col)

/-- Pandas `Series.fillna(v)` where `v` may itself be NaN (an all-NaN column's
median): filling with NaN leaves the cell missing. -/
def fillna (cell : Option ℚ) (v : Option ℚ) : Option ℚ :=
  match cell with
  | some x => some x
  | none => v

/-- Python's `str.strip()`: drop leading and trailing whitespace. -/
def strip (s : String) : String :=
  String.mk (((s.data.dropWhile Char.isWhitespace).reverse.dropWhile
    Char.isWhitespace).reverse)

/-- The four per-column batch medians `clean_matches` computes. -/
structure BatchMedians where
  wht : Option ℚ
  lht : Option ℚ
  wage : Option ℚ
  lage : Option ℚ

def batchMedians (df : List MatchRow) : BatchMedians :=
  { wht := colMedian df (·.winner_ht)
    lht := colMedian df (·.loser_ht)
    wage := colMedian df (·.winner_age)
    lage := colMedian df (·.loser_age) }

/-- One row of `TennisDataPreprocessor.clean_matches`: surface
`fillna('Unknown').str.strip()`; ranks `fillna(9999).astype(int)` (the cast
truncates, modelled by `Rat.floor` — ranks are nonnegative); heights and ages
`fillna(column median)`; hands `fillna('U').str.strip()`. -/
def cleanRow (m : BatchMedians) (r : MatchRow) : MatchRow :=
  { r with
    surface := some (strip (r.surface.getD "Unknown"))
    winner_rank := some (((r.winner_rank.getD 9999).floor : ℤ) : ℚ)
    loser_rank := some (((r.loser_rank.getD 9999).floor : ℤ) : ℚ)
    winner_ht := fillna r.winner_ht m.wht
    loser_ht := fillna r.loser_ht m.lht
    winner_age := fillna r.winner_age m.wage
    loser_age := fillna r.loser_age m.lage
    winner_hand := some (strip (r.winner_hand.getD "U"))
    loser_hand := some (strip (r.loser_hand.getD "U")) }

/-- Embedding of `TennisDataPreprocessor.clean_matches` (the date-column handling, which no
verified property reads, is omitted).  No row is ever dropped. -/
def clean_matches (df : List MatchRow) : List MatchRow :=
  df.map (cleanRow (batchMedians df))

/-- NaN-propagating elementwise subtraction of two columns. -/
def optSub (a b : Option ℚ) : Option ℚ :=
  match a, b with
  | some x, some y => some (x - y)
  | _, _ => none

/-- Embedding of `TennisDataPreprocessor.create_player_features`, one row: the signed
difference columns (winner − loser) and the same-hand flag (a pandas
elementwise `==` is `False` whenever either side is NaN). -/
def playerFeatRow (r : MatchRow) : MatchRow :=
  { r with
    rank_diff := optSub r.winner_rank r.loser_rank
    age_diff := optSub r.winner_age r.loser_age
    height_diff := optSub r.winner_ht r.loser_ht
    same_hand :=
      some (match r.winner_hand, r.loser_hand with
            | some a, some b => if a = b then 1 else 0
            | _, _ => 0) }

/-- Embedding of `TennisDataPreprocessor.create_match_features`, one row: surface and
tournament-level one-hot flags (a comparison with a NaN cell is `False`,
hence 0).  The `round_num` column is omitted: nothing verified reads it. -/
def matchFeatRow (r : MatchRow) : MatchRow :=
  { r with
    is_hard := some (if r.surface = some "Hard" then 1 else 0)
    is_clay := some (if r.surface = some "Clay" then 1 else 0)
    is_grass := some (if r.surface = some "Grass" then 1 else 0)
    is_carpet := some (if r.surface = some "Carpet" then 1 else 0)
    is_grand_slam := some (if r.tourney_level = some "G" then 1 else 0)
    is_masters := some (if r.tourney_level = some "M" then 1 else 0)
    is_atp500 := some (if r.tourney_level = some "A" then 1 else 0) }

/-- The full per-row preprocessing pipeline applied by `prepare_for_ml`
before sampling (`create_serve_features` only writes serve-statistic columns
that the sampled frame does not select, so it is omitted). -/
def processRow (m : BatchMedians) (r : MatchRow) : MatchRow :=
  matchFeatRow (playerFeatRow (cleanRow m r))

/-- An ordered feature-frame row: (column name, value) pairs in the order of
the source's dict literal. -/
abbrev FeatureRow := List (String × ℚ)

/-- Sample 1 of `prepare_for_ml`: player1 = actual winner (label 1). -/
def X1row (m : MatchRow) : FeatureRow :=
  [("p1_rank", m.winner_rank.getD 9999),
   ("p2_rank", m.loser_rank.getD 9999),
   ("rank_diff", m.rank_diff.getD 0),
   ("p1_age", m.winner_age.getD 25),
   ("p2_age", m.loser_age.getD 25),
   ("age_diff", m.age_diff.getD 0),
   ("p1_ht", m.winner_ht.getD 180),
   ("p2_ht", m.loser_ht.getD 180),
   ("height_diff", m.height_diff.getD 0),
   ("is_hard", m.is_hard.getD 0),
   ("is_clay", m.is_clay.getD 0),
   ("is_grass", m.is_grass.getD 0),
   ("is_grand_slam", m.is_grand_slam.getD 0),
   ("is_masters", m.is_masters.getD 0)]

/-- Sample 2 of `prepare_for_ml`: player1 = actual loser (label 0); the
difference columns are negated, the absolute columns swapped, the context
flags taken unchanged. -/
def X2row (m : MatchRow) : FeatureRow :=
  [("p1_rank", m.loser_rank.getD 9999),
   ("p2_rank", m.winner_rank.getD 9999),
   ("rank_diff", -(m.rank_diff.getD 0)),
   ("p1_age", m.loser_age.getD 25),
   ("p2_age", m.winner_age.getD 25),
   ("age_diff", -(m.age_diff.getD 0)),
   ("p1_ht", m.loser_ht.getD 180),
   ("p2_ht", m.winner_ht.getD 180),
   ("height_diff", -(m.height_diff.getD 0)),
   ("is_hard", m.is_hard.getD 0),
   ("is_clay", m.is_clay.getD 0),
   ("is_grass", m.is_grass.getD 0),
   ("is_grand_slam", m.is_grand_slam.getD 0),
   ("is_masters", m.is_masters.getD 0)]

/-- Embedding of `TennisDataPreprocessor.prepare_for_ml`: clean, derive features, then
emit the winner-first sample block followed by the loser-first block, with
labels `1` then `0` (`pd.concat([X1, X2])` / `pd.concat([y1, y2])`).  The
final `X.fillna(X.median())` is a no-op here: every selected cell was already
filled by the per-column `fillna` defaults above. -/
def prepare_for_ml (df : List MatchRow) : List FeatureRow × List ℕ :=
  let d := df.map (processRow (batchMedians df))
  (d.map X1row ++ d.map X2row,
   List.replicate d.length 1 ++ List.replicate d.length 0)

/-- Value of named feature `c` in row `r` (first occurrence). -/
def fval (r : FeatureRow) (c : String) : Option ℚ :=
  (r.find? (fun p => p.1 == c)).map Prod.snd

/-! ## Outcome model (`MatchPredictor`, src/match_predictor.py)

Only the state and schema discipline is embedded; the fitted sklearn
classifier's numeric output is abstracted away from every verified property. -/

/-- The abstract error kinds of the spec's error table, as signalled by
`MatchPredictor`: `notTrained` is the `ValueError("Model not trained yet…")`
raised by `predict` / `predict_proba` / `save`; `schemaMismatch` is the
`ValueError` sklearn's `scaler.transform` raises when the input frame's
column names differ (in set or order) from `feature_names_in_` recorded at
fit time. -/
inductive PredError where
  | notTrained
  | schemaMismatch
deriving DecidableEq

/-- The mutable state of a `MatchPredictor` instance: the `is_trained` flag
and the ordered feature-name list (`self.feature_names`, which always equals
the scaler's `feature_names_in_`: both are set from the training frame's
columns by `train` and restored together from the bundle by `load`). -/
structure PredictorState where
  is_trained : Bool
  feature_names : Option (List String)
deriving DecidableEq

/-- State after `MatchPredictor.__init__`: not trained, no feature names recorded. -/
def PredictorState.init : PredictorState :=
  { is_trained := false, feature_names := none }

/-- Embedding of `MatchPredictor.train`: records `X.columns`, fits the scaler on them,
and sets `is_trained` (the fitted classifier itself is abstracted here). -/
def PredictorState.train (s : PredictorState) (cols : List String) : PredictorState :=
  { s with feature_names := some cols, is_trained := true }

/-- Embedding of `MatchPredictor.load`: restores the feature-name list from the bundle
and sets `is_trained`. -/
def PredictorState.load (s : PredictorState) (bundleCols : List String) : PredictorState :=
  { s with feature_names := some bundleCols, is_trained := true }

/-- Embedding of `MatchPredictor.predict_proba`: raises `notTrained` unless `is_trained`;
then `scaler.transform(X)` validates the input columns against the names
recorded at fit and raises on any difference of set or order
(`schemaMismatch`); otherwise the call succeeds. -/
def PredictorState.predict_proba (s : PredictorState) (inputCols : List String) :
    Except PredError Unit :=
  if s.is_trained = false then .error .notTrained
  else if s.feature_names = some inputCols then .ok ()
  else .error .schemaMismatch

/-- Embedding of `MatchPredictor.save`: raises `notTrained` unless `is_trained`;
otherwise persists the bundle (feature-name list and model-kind tag; the
pickled classifier and scaler are abstracted here). -/
def PredictorState.save (s : PredictorState) : Except PredError (Option (List String)) :=
  if s.is_trained = false then .error .notTrained
  else .ok s.feature_names

/-- The operations a caller can perform on one `MatchPredictor` instance. -/
inductive PredictorOp where
  | train (cols : List String)
  | load (cols : List String)
  | predict_proba (cols : List String)
  | save
deriving DecidableEq

/-- Whether an operation is a completed `train` or `load`. -/
def PredictorOp.setsTrained : PredictorOp → Bool
  | .train _ => true
  | .load _ => true
  | _ => false

/-- State transition of one operation (`predict_proba` and `save` read the
state but never mutate it). -/
def applyOp (s : PredictorState) : PredictorOp → PredictorState
  | .train cols => s.train cols
  | .load cols => s.load cols
  | .predict_proba _ => s
  | .save => s

/-- The state of an instance after a sequence of completed operations. -/
def runOps (s : PredictorState) (ops : List PredictorOp) : PredictorState :=
  ops.foldl applyOp s

/-! ## Player directory (`HeadToHeadPredictor`, src/head_to_head.py) -/

/-- One player's most recent known attributes
(`HeadToHeadPredictor.load_player_database` dict values). -/
structure PlayerInfo where
  name : String
  rank : ℚ
  age : ℚ
  height : ℚ
  hand : String
deriving DecidableEq

/-- The `self.player_data` dict: an insertion-ordered association list with
distinct keys (Python dicts iterate in insertion order). -/
abbrev PlayerDB := List (String × PlayerInfo)

/-- Python's `str.lower()` (per-character lowering). -/
def lowercase (s : String) : String := String.mk (s.data.map Char.toLower)

/-- Python's `str.upper()` (per-character raising). -/
def uppercase (s : String) : String := String.mk (s.data.map Char.toUpper)

/-- Python's `needle in haystack` on lists of characters: `needle` occurs
contiguously inside `haystack`. -/
def isSubstr (needle : List Char) : List Char → Bool
  | [] => needle.isEmpty
  | c :: t => needle.isPrefixOf (c :: t) || isSubstr needle t

/-- The substring-fallback test of `get_player_info`:
`player_name.lower() in p.lower()`. -/
def nameMatches (query stored : String) : Bool :=
  isSubstr (lowercase query).data (lowercase stored).data

/-- Embedding of `HeadToHeadPredictor.get_player_info`: exact dict lookup first; otherwise
the first key, in dict iteration (= insertion) order, whose lower-cased name
contains the lower-cased query; otherwise `None`. -/
def get_player_info (db : PlayerDB) (player_name : String) : Option PlayerInfo :=
  match db.find? (fun p => p.1 == player_name) with
  | some p => some p.2
  | none =>
    match (db.filter (fun p => nameMatches player_name p.1)).head? with
    | some p => some p.2
    | none => none

/-- Dict insertion as used by `load_player_database`: a name already present
is never overwritten (first occurrence wins); appending preserves insertion
order. -/
def insertPlayer (db : PlayerDB) (pname : Option String) (info : String → PlayerInfo) : PlayerDB :=
  match pname with
  | none => db
  | some n => if db.any (fun p => p.1 == n) then db else db ++ [(n, info n)]

/-- Embedding of `HeadToHeadPredictor.load_player_database`: one pass over the winner
column, then one pass over the loser column, inserting first-seen attributes
per unique name (`row.get(col, default)` defaults are applied when the cell
is absent). -/
def load_player_database (df : List MatchRow) : PlayerDB :=
  let winners := df.foldl
    (fun db r => insertPlayer db r.winner_name
      (fun n => { name := n, rank := r.winner_rank.getD 999,
                  age := r.winner_age.getD 25, height := r.winner_ht.getD 185,
                  hand := r.winner_hand.getD "R" })) []
  df.foldl
    (fun db r => insertPlayer db r.loser_name
      (fun n => { name := n, rank := r.loser_rank.getD 999,
                  age := r.loser_age.getD 25, height := r.loser_ht.getD 185,
                  hand := r.loser_hand.getD "R" })) winners

/-- The single-pair inference feature frame built by
`HeadToHeadPredictor.predict_match` (one dict row, insertion order). -/
def h2h_features (p1 p2 : PlayerInfo) (surface : String)
    (is_grand_slam is_masters : Bool) : FeatureRow :=
  [("p1_rank", p1.rank),
   ("p2_rank", p2.rank),
   ("rank_diff", p1.rank - p2.rank),
   ("p1_age", p1.age),
   ("p2_age", p2.age),
   ("age_diff", p1.age - p2.age),
   ("p1_ht", p1.height),
   ("p2_ht", p2.height),
   ("height_diff", p1.height - p2.height),
   ("is_hard", if lowercase surface = "hard" then 1 else 0),
   ("is_clay", if lowercase surface = "clay" then 1 else 0),
   ("is_grass", if lowercase surface = "grass" then 1 else 0),
   ("is_grand_slam", if is_grand_slam then 1 else 0),
   ("is_masters", if is_masters then 1 else 0)]

/-- The single-pair inference feature frame built by
`predict_example.predict_match` (one dict row, insertion order). -/
def example_features (p1_rank p2_rank p1_age p2_age p1_ht p2_ht : ℚ)
    (surface : String) (is_grand_slam is_masters : Bool) : FeatureRow :=
  [("p1_rank", p1_rank),
   ("p2_rank", p2_rank),
   ("rank_diff", p1_rank - p2_rank),
   ("p1_age", p1_age),
   ("p2_age", p2_age),
   ("age_diff", p1_age - p2_age),
   ("p1_ht", p1_ht),
   ("p2_ht", p2_ht),
   ("height_diff", p1_ht - p2_ht),
   ("is_hard", if lowercase surface = "hard" then 1 else 0),
   ("is_clay", if lowercase surface = "clay" then 1 else 0),
   ("is_grass", if lowercase surface = "grass" then 1 else 0),
   ("is_grand_slam", if is_grand_slam then 1 else 0),
   ("is_masters", if is_masters then 1 else 0)]

/-! ## Explanation engine (`HeadToHeadPredictor._create_explanation`) -/

/-- One explanation line, one constructor per f-string of
`_create_explanation`, carrying the data the f-string interpolates (the
surrounding Korean prose is constant per constructor). -/
inductive ExpLine where
  /-- Line `[+] Ranking Advantage`: player 1 ranks higher, by `steps` places. -/
  | rankingAdvantage (hiName loName : String) (steps : ℚ) (hiRank loRank : ℚ)
  /-- Line `[-] Ranking Disadvantage`: player 2 ranks higher, by `steps` places. -/
  | rankingDisadvantage (hiName loName : String) (steps : ℚ) (hiRank loRank : ℚ)
  /-- Line `[=] Similar Ranking`: a close match is expected. -/
  | similarRanking (r1 r2 : ℚ)
  /-- Line `[AGE] Age Difference`: `olderName` is `years` older. -/
  | ageDifference (olderName : String) (years : ℚ) (olderAge youngerAge : ℚ)
  /-- Line `[HT] Height Difference`: `tallerName` is `cm` taller. -/
  | heightDifference (tallerName : String) (cm : ℚ) (h1 h2 : ℚ)
  /-- Line `[COURT] Surface`: the (upper-cased) surface, a minor factor. -/
  | surfaceNote (surface : String)
  /-- Line `[*] CONCLUSION`: near coin-flip. -/
  | coinFlip
  /-- Line `[*] CONCLUSION`: overwhelming favorite `name`. -/
  | strongFavorite (name : String)
  /-- Line `[*] CONCLUSION`: slight favorite `name`. -/
  | slightFavorite (name : String)
deriving DecidableEq

/-- Embedding of `HeadToHeadPredictor._create_explanation`: the ordered rule evaluation
(the `features` argument is passed by the source but never read — the
engine recomputes the differences from the two profiles). -/
def create_explanation (p1 p2 : PlayerInfo) (features : FeatureRow)
    (p1_win_prob : ℚ) (surface : String) : List ExpLine :=
  let _ := features
  let p2_win_prob := 100 - p1_win_prob
  let rank_diff := p1.rank - p2.rank
  let rankLines :=
    if rank_diff < -10 then
      [ExpLine.rankingAdvantage p1.name p2.name |rank_diff| p1.rank p2.rank]
    else if rank_diff > 10 then
      [ExpLine.rankingDisadvantage p2.name p1.name |rank_diff| p2.rank p1.rank]
    else
      [ExpLine.similarRanking p1.rank p2.rank]
  let age_diff := p1.age - p2.age
  let ageLines :=
    if |age_diff| > 5 then
      if age_diff > 0 then [ExpLine.ageDifference p1.name |age_diff| p1.age p2.age]
      else [ExpLine.ageDifference p2.name |age_diff| p2.age p1.age]
    else []
  let height_diff := p1.height - p2.height
  let htLines :=
    if |height_diff| > 5 then
      [ExpLine.heightDifference (if height_diff > 0 then p1.name else p2.name)
        |height_diff| p1.height p2.height]
    else []
  let conclusion :=
    if |p1_win_prob - 50| < 5 then ExpLine.coinFlip
    else if p1_win_prob > 70 then ExpLine.strongFavorite p1.name
    else if p2_win_prob > 70 then ExpLine.strongFavorite p2.name
    else ExpLine.slightFavorite (if p1_win_prob > 50 then p1.name else p2.name)
  rankLines ++ ageLines ++ htLines ++ [ExpLine.surfaceNote (uppercase surface)] ++ [conclusion]

/-! ## The verified properties -/

/-- The ordered feature schema as the spec states it (the contract both
modes must satisfy byte-for-byte). -/
def ml_feature_names : List String :=
  ["p1_rank", "p2_rank", "rank_diff", "p1_age", "p2_age", "age_diff",
   "p1_ht", "p2_ht", "height_diff", "is_hard", "is_clay", "is_grass",
   "is_grand_slam", "is_masters"]

/-- Claim C3. The ordered feature-name list is byte-for-byte identical across
the two batch-mode sample frames (`prepare_for_ml`'s `X1`/`X2`), the
single-pair inference frame of `HeadToHeadPredictor.predict_match`, and the
single-pair frame of `predict_example.predict_match`, and equals the stated
schema `p1_rank, …, is_masters`. -/
theorem c3_feature_schema_byte_identical (m : MatchRow) (p1 p2 : PlayerInfo)
    (surface : String) (gs ms : Bool)
    (r1 r2 a1 a2 h1 h2 : ℚ) (surface2 : String) (gs2 ms2 : Bool) :
    (X1row m).map Prod.fst = ml_feature_names ∧
    (X2row m).map Prod.fst = ml_feature_names ∧
    (h2h_features p1 p2 surface gs ms).map Prod.fst = ml_feature_names ∧
    (example_features r1 r2 a1 a2 h1 h2 surface2 gs2 ms2).map Prod.fst = ml_feature_names :=
  ⟨rfl, rfl, rfl, rfl⟩

/-- Witness for C3 at concrete inputs. -/
theorem c3_feature_schema_byte_identical_witness :
    (X1row {}).map Prod.fst = ml_feature_names ∧
    (X2row {}).map Prod.fst = ml_feature_names ∧
    (h2h_features ⟨"Djokovic", 1, 37, 188, "R"⟩ ⟨"Alcaraz", 2, 21, 183, "R"⟩
        "hard" true false).map Prod.fst = ml_feature_names ∧
    (example_features 1 2 37 21 188 183 "hard" true false).map Prod.fst = ml_feature_names :=
  c3_feature_schema_byte_identical {} ⟨"Djokovic", 1, 37, 188, "R"⟩
    ⟨"Alcaraz", 2, 21, 183, "R"⟩ "hard" true false 1 2 37 21 188 183 "hard" true false

/-- Claim C7. The conclusion line is the last explanation line and is chosen
by evaluating, in order: `|p1_win_prob − 50| < 5` gives the near-coin-flip
line regardless of who leads; otherwise a probability above 70 gives the
strong-favorite line naming that player; otherwise the slight-favorite line
names the higher-probability player. -/
theorem c7_conclusion_rule (p1 p2 : PlayerInfo) (features : FeatureRow)
    (p1_win_prob : ℚ) (surface : String) :
    (create_explanation p1 p2 features p1_win_prob surface).getLast? =
      some (if |p1_win_prob - 50| < 5 then ExpLine.coinFlip
            else if 70 < p1_win_prob ∨ 70 < 100 - p1_win_prob then
              ExpLine.strongFavorite (if 70 < p1_win_prob then p1.name else p2.name)
            else
              ExpLine.slightFavorite
                (if 100 - p1_win_prob < p1_win_prob then p1.name else p2.name)) := by
  simp only [create_explanation, List.getLast?_concat]
  by_cases hcf : |p1_win_prob - 50| < 5
  · simp [hcf]
  · by_cases hp1 : p1_win_prob > 70
    · simp [hcf, hp1]
    · by_cases hp2 : 100 - p1_win_prob > 70
      · simp [hcf, hp1, hp2]
      · have hor : ¬(70 < p1_win_prob ∨ 70 < 100 - p1_win_prob) := by
          push_neg
          exact ⟨le_of_not_lt hp1, le_of_not_lt hp2⟩
        have heq : (100 - p1_win_prob < p1_win_prob) ↔ (p1_win_prob > 50) := by
          constructor <;> intro h <;> linarith
        simp [hcf, hp1, hp2, hor, heq]

/-- Witness for C7 at `p1_win_prob = 52` (the spec's scenario: a near
coin-flip even though player 1 nominally leads). -/
theorem c7_conclusion_rule_witness :
    (create_explanation ⟨"Djokovic", 1, 37, 188, "R"⟩ ⟨"Alcaraz", 2, 21, 183, "R"⟩
        [] 52 "hard").getLast? =
      some (if |(52 : ℚ) - 50| < 5 then ExpLine.coinFlip
            else if 70 < (52 : ℚ) ∨ 70 < 100 - (52 : ℚ) then
              ExpLine.strongFavorite (if 70 < (52 : ℚ) then "Djokovic" else "Alcaraz")
            else
              ExpLine.slightFavorite
                (if 100 - (52 : ℚ) < 52 then "Djokovic" else "Alcaraz")) :=
  c7_conclusion_rule ⟨"Djokovic", 1, 37, 188, "R"⟩ ⟨"Alcaraz", 2, 21, 183, "R"⟩ [] 52 "hard"

/-- Claim C8. The ranking rule emits the first explanation line: an advantage
line naming the player with the better (lower-numbered) rank together with
the magnitude exactly when `|rank_diff| > 10`, and otherwise the
similar-ranking line. -/
theorem c8_ranking_rule (p1 p2 : PlayerInfo) (features : FeatureRow)
    (p1_win_prob : ℚ) (surface : String) :
    (create_explanation p1 p2 features p1_win_prob surface).head? =
      some (if 10 < |p1.rank - p2.rank| then
              if p1.rank < p2.rank then
                ExpLine.rankingAdvantage p1.name p2.name |p1.rank - p2.rank| p1.rank p2.rank
              else
                ExpLine.rankingDisadvantage p2.name p1.name |p1.rank - p2.rank| p2.rank p1.rank
            else ExpLine.similarRanking p1.rank p2.rank) := by
  simp only [create_explanation]
  by_cases hlo : p1.rank - p2.rank < -10
  · have hneg : p1.rank - p2.rank < 0 := by linarith
    have habs : 10 < |p1.rank - p2.rank| := by rw [abs_of_neg hneg]; linarith
    have hlt : p1.rank < p2.rank := by linarith
    simp [hlo, habs, hlt]
  · by_cases hhi : p1.rank - p2.rank > 10
    · have hpos : 0 < p1.rank - p2.rank := by linarith
      have habs : 10 < |p1.rank - p2.rank| := by rw [abs_of_pos hpos]; linarith
      have hnlt : ¬p1.rank < p2.rank := by linarith
      simp [hlo, hhi, habs, hnlt]
    · have habs : ¬10 < |p1.rank - p2.rank| := by
        rw [not_lt]
        exact abs_le.mpr ⟨by linarith, by linarith⟩
      simp [hlo, hhi, habs]

/-- Witness for C8 at the spec's scenario `rank1 = 1, rank2 = 2`: the
ranking line states similar ranking, not an advantage claim. -/
theorem c8_ranking_rule_witness :
    (create_explanation ⟨"Djokovic", 1, 37, 188, "R"⟩ ⟨"Alcaraz", 2, 21, 183, "R"⟩
        [] 52 "hard").head? = some (ExpLine.similarRanking 1 2) := by
  have h := c8_ranking_rule ⟨"Djokovic", 1, 37, 188, "R"⟩ ⟨"Alcaraz", 2, 21, 183, "R"⟩
    [] 52 "hard"
  norm_num at h
  exact h

/-- Claim C2. On a trained predictor, `predict_proba` fails with the schema
mismatch error exactly when the caller's ordered feature-name list differs
(in set or order) from the list recorded at training time, succeeds exactly
when they coincide, and never reports the not-trained error: columns are
never silently reordered or misattributed. -/
theorem c2_predict_proba_schema_mismatch (s : PredictorState)
    (fns inputCols : List String)
    (htr : s.is_trained = true) (hfn : s.feature_names = some fns) :
    (s.predict_proba inputCols = .error .schemaMismatch ↔ inputCols ≠ fns) ∧
    (s.predict_proba inputCols = .ok () ↔ inputCols = fns) ∧
    s.predict_proba inputCols ≠ .error .notTrained := by
  unfold PredictorState.predict_proba
  rw [htr, hfn]
  by_cases h : inputCols = fns
  · subst h
    simp
  · have : ¬(some fns = some inputCols) := by
      simp
      exact fun hh => h hh.symm
    simp [this, h]

/-- Witness for C2: a predictor trained on `["a", "b"]` queried with the
reordered columns `["b", "a"]`. -/
theorem c2_predict_proba_schema_mismatch_witness :
    ((PredictorState.init.train ["a", "b"]).predict_proba ["b", "a"] =
        .error .schemaMismatch ↔ (["b", "a"] : List String) ≠ ["a", "b"]) ∧
    ((PredictorState.init.train ["a", "b"]).predict_proba ["b", "a"] = .ok () ↔
        (["b", "a"] : List String) = ["a", "b"]) ∧
    (PredictorState.init.train ["a", "b"]).predict_proba ["b", "a"] ≠
        .error .notTrained :=
  c2_predict_proba_schema_mismatch (PredictorState.init.train ["a", "b"])
    ["a", "b"] ["b", "a"] rfl rfl

/-- The `is_trained` flag after a run equals: it was already set, or some
completed operation in the run was a `train` or `load`. -/
theorem runOps_is_trained (ops : List PredictorOp) (s : PredictorState) :
    (runOps s ops).is_trained = (s.is_trained || ops.any PredictorOp.setsTrained) := by
  induction ops generalizing s with
  | nil => simp [runOps]
  | cons op t ih =>
    cases op <;>
      simp [runOps, List.foldl_cons, applyOp, PredictorOp.setsTrained,
        PredictorState.train, PredictorState.load, ih, List.any_cons] <;>
      rw [← runOps] <;> simp [ih]

/-- Helper: `predict_proba` reports the not-trained error exactly when the flag is
unset. -/
theorem predict_proba_notTrained_iff (s : PredictorState) (cols : List String) :
    s.predict_proba cols = .error .notTrained ↔ s.is_trained = false := by
  unfold PredictorState.predict_proba
  by_cases h : s.is_trained = false
  · simp [h]
  · by_cases h2 : s.feature_names = some cols <;> simp [h, h2]

/-- Helper: `save` reports the not-trained error exactly when the flag is unset. -/
theorem save_notTrained_iff (s : PredictorState) :
    s.save = .error .notTrained ↔ s.is_trained = false := by
  unfold PredictorState.save
  by_cases h : s.is_trained = false <;> simp [h]

/-- Claim C5. On a fresh `MatchPredictor` instance, after any sequence of
completed operations, `predict_proba` and `save` report the not-trained
error if and only if no `train` or `load` has completed in that sequence;
in particular after a successful `train` or `load` neither reports it. -/
theorem c5_not_trained_iff (ops : List PredictorOp) (cols : List String) :
    ((runOps PredictorState.init ops).predict_proba cols = .error .notTrained ↔
      ∀ op ∈ ops, op.setsTrained = false) ∧
    ((runOps PredictorState.init ops).save = .error .notTrained ↔
      ∀ op ∈ ops, op.setsTrained = false) := by
  have hflag : (runOps PredictorState.init ops).is_trained = false ↔
      ∀ op ∈ ops, op.setsTrained = false := by
    rw [runOps_is_trained]
    simp [PredictorState.init, List.any_eq_false]
  exact ⟨(predict_proba_notTrained_iff _ cols).trans hflag,
    (save_notTrained_iff _).trans hflag⟩

/-- Witness for C5: before any operation the error is reported; after a
completed `train` it is not. -/
theorem c5_not_trained_iff_witness :
    ((runOps PredictorState.init []).predict_proba ["a"] = .error .notTrained ↔
      ∀ op ∈ ([] : List PredictorOp), op.setsTrained = false) ∧
    ((runOps PredictorState.init [.train ["a"], .save]).save = .error .notTrained ↔
      ∀ op ∈ [PredictorOp.train ["a"], PredictorOp.save], op.setsTrained = false) :=
  ⟨(c5_not_trained_iff [] ["a"]).1, (c5_not_trained_iff [.train ["a"], .save] ["a"]).2⟩

/-- With pairwise-distinct keys, `find?` on the key predicate returns the
unique binding of a present key. -/
theorem find?_key_of_mem (db : PlayerDB) (pname : String) (info : PlayerInfo)
    (hnd : (db.map Prod.fst).Nodup) (hmem : (pname, info) ∈ db) :
    db.find? (fun p => p.1 == pname) = some (pname, info) := by
  induction db with
  | nil => cases hmem
  | cons hd t ih =>
    rw [List.map_cons, List.nodup_cons] at hnd
    rcases List.mem_cons.mp hmem with heq | hmemt
    · subst heq
      simp [List.find?]
    · have hne : hd.1 ≠ pname := by
        intro h
        exact hnd.1 (h ▸ List.mem_map_of_mem Prod.fst hmemt)
      simp only [List.find?, show (hd.1 == pname) = false from beq_eq_false_iff_ne.mpr hne]
      exact ih hnd.2 hmemt

/-- Claim C9. Whenever an exact name match exists in the player directory
(whose keys are distinct, as in a Python dict), `get_player_info` returns
that exact binding's profile — even if other names would also satisfy the
case-insensitive substring fallback. -/
theorem c9_exact_match_preferred (db : PlayerDB) (pname : String) (info : PlayerInfo)
    (hnd : (db.map Prod.fst).Nodup) (hmem : (pname, info) ∈ db) :
    get_player_info db pname = some info := by
  unfold get_player_info
  rw [find?_key_of_mem db pname info hnd hmem]

/-- Witness for C9: the exact key `"Nadal"` is second in insertion order
while `"Rafael Nadal"`, which the substring fallback would match first,
is first; the exact binding is still returned. -/
theorem c9_exact_match_preferred_witness :
    get_player_info
      [("Rafael Nadal", ⟨"Rafael Nadal", 276, 37, 185, "L"⟩),
       ("Nadal", ⟨"Nadal", 1, 24, 185, "L"⟩)] "Nadal" =
      some ⟨"Nadal", 1, 24, 185, "L"⟩ :=
  c9_exact_match_preferred _ "Nadal" ⟨"Nadal", 1, 24, 185, "L"⟩
    (by decide) (by decide)

/-- The head of a filtered list is the first element satisfying the
predicate. -/
theorem filter_head?_eq_find? {α : Type} (p : α → Bool) (l : List α) :
    (l.filter p).head? = l.find? p := by
  induction l with
  | nil => rfl
  | cons a t ih =>
    by_cases h : p a <;> simp [List.filter_cons, List.find?_cons, h, ih]

/-- A two-match build batch: winners `Rune` then `Alcaraz`, loser `Nadal`. -/
def c4Rows : List MatchRow :=
  [{ winner_name := some "Rune", loser_name := some "Nadal" },
   { winner_name := some "Alcaraz", loser_name := some "Nadal" }]

/-- The player directory built from `c4Rows`; its insertion order is
winners first (`Rune`, `Alcaraz`), then losers (`Nadal`). -/
def c4DB : PlayerDB := load_player_database c4Rows

/-- Claim C4, counterexample. In the directory built from `c4Rows`, the query
`"r"` has no exact match and the substring fallback matches both `"Rune"`
and `"Alcaraz"`; `"Alcaraz"` comes first alphabetically, yet the lookup
returns `"Rune"` — the first match in dict insertion order, not in an
alphabetical (or otherwise documented) scan order. -/
theorem c4_counterexample :
    c4DB.map Prod.fst = ["Rune", "Alcaraz", "Nadal"] ∧
    (c4DB.find? (fun p => p.1 == "r")) = none ∧
    nameMatches "r" "Rune" = true ∧
    nameMatches "r" "Alcaraz" = true ∧
    "Alcaraz".data < "Rune".data ∧
    (get_player_info c4DB "r").map PlayerInfo.name = some "Rune" := by
  decide

/-- Claim C4, amended. When no exact match exists, the substring fallback
returns the profile of the first matching name in the directory's dict
insertion order (winners pass before losers pass, each in row order) — a
deterministic scan order for a fixed directory, but the container's
insertion order rather than an alphabetical or otherwise documented one. -/
theorem c4_substring_scan_insertion_order (db : PlayerDB) (q : String)
    (hex : db.find? (fun p => p.1 == q) = none) :
    get_player_info db q = (db.find? (fun p => nameMatches q p.1)).map Prod.snd := by
  unfold get_player_info
  rw [hex, filter_head?_eq_find?]
  cases h : db.find? (fun p => nameMatches q p.1) <;> simp [h]

/-- Witness for the amended C4 at the concrete directory `c4DB`. -/
theorem c4_substring_scan_insertion_order_witness :
    get_player_info c4DB "r" =
      (c4DB.find? (fun p => nameMatches "r" p.1)).map Prod.snd :=
  c4_substring_scan_insertion_order c4DB "r" (by decide)

/-- The empty character list occurs in every character list. -/
theorem isSubstr_nil (hay : List Char) : isSubstr [] hay = true := by
  induction hay with
  | nil => rfl
  | cons c t ih => simp [isSubstr, List.isPrefixOf, ih]

/-- The empty query passes the substring test against every stored name. -/
theorem nameMatches_empty (s : String) : nameMatches "" s = true := by
  have h : (lowercase "").data = [] := rfl
  unfold nameMatches
  rw [h]
  exact isSubstr_nil _

/-- Claim C10. On a non-empty directory, looking up the empty string (and any
query whose lower-cased text occurs in some stored lower-cased name) never
produces a player-not-found result; since the empty string matches every
stored name, when no player is literally named `""` the lookup returns the
profile of the first name in the directory's scan order. -/
theorem c10_empty_query_never_not_found (db : PlayerDB) (hne : db ≠ []) :
    (get_player_info db "").isSome = true ∧
    (∀ q : String, (∃ p ∈ db, nameMatches q p.1 = true) →
      (get_player_info db q).isSome = true) ∧
    ((∀ p ∈ db, p.1 ≠ "") → get_player_info db "" = db.head?.map Prod.snd) := by
  have hgen : ∀ q : String, (∃ p ∈ db, nameMatches q p.1 = true) →
      (get_player_info db q).isSome = true := by
    rintro q ⟨p, hp, hm⟩
    unfold get_player_info
    cases hfind : db.find? (fun x => x.1 == q) with
    | some x => simp
    | none =>
      have hmem : p ∈ db.filter (fun x => nameMatches q x.1) :=
        List.mem_filter.mpr ⟨hp, hm⟩
      cases hfilter : (db.filter (fun x => nameMatches q x.1)).head? with
      | some x => simp
      | none =>
        rw [List.head?_eq_none_iff] at hfilter
        rw [hfilter] at hmem
        cases hmem
  refine ⟨?_, hgen, ?_⟩
  · obtain ⟨p, hp⟩ := List.exists_mem_of_ne_nil db hne
    exact hgen "" ⟨p, hp, nameMatches_empty p.1⟩
  · intro hkeys
    unfold get_player_info
    have hfind : db.find? (fun p => p.1 == "") = none :=
      List.find?_eq_none.mpr (fun x hx h => hkeys x hx (by simpa using h))
    have hfilter : db.filter (fun p => nameMatches "" p.1) = db :=
      List.filter_eq_self.mpr (fun a _ => nameMatches_empty a.1)
    rw [hfind, hfilter]
    cases db <;> simp

/-- Witness for C10 at the concrete directory `c4DB`: the empty query is
found and returns the insertion-first profile (`Rune`). -/
theorem c10_empty_query_never_not_found_witness :
    (get_player_info c4DB "").isSome = true ∧
    get_player_info c4DB "" = c4DB.head?.map Prod.snd :=
  ⟨(c10_empty_query_never_not_found c4DB (by decide)).1,
   (c10_empty_query_never_not_found c4DB (by decide)).2.2 (by decide)⟩

/-- Claim C1. Batch-mode augmentation: the feature frame and label series are
exactly twice the input match count, and for every input match `i` the frame
holds two rows built from the same processed match — row `i` (label 1) with
the actual winner as player 1, row `n + i` (label 0) with the actual loser
as player 1 — in which every difference feature of the second row is the
negation of the first's, the absolute features are swapped, and the surface
and tournament one-hot flags are identical. -/
theorem c1_symmetric_augmentation (df : List MatchRow) :
    (prepare_for_ml df).1.length = 2 * df.length ∧
    (prepare_for_ml df).2.length = 2 * df.length ∧
    ∀ i, ∀ hi : i < df.length,
      ∃ m : MatchRow,
        (prepare_for_ml df).1[i]? = some (X1row m) ∧
        (prepare_for_ml df).1[df.length + i]? = some (X2row m) ∧
        (prepare_for_ml df).2[i]? = some 1 ∧
        (prepare_for_ml df).2[df.length + i]? = some 0 ∧
        fval (X1row m) "p1_rank" = some (m.winner_rank.getD 9999) ∧
        fval (X1row m) "p1_age" = some (m.winner_age.getD 25) ∧
        fval (X1row m) "p1_ht" = some (m.winner_ht.getD 180) ∧
        fval (X2row m) "p1_rank" = some (m.loser_rank.getD 9999) ∧
        fval (X2row m) "p1_age" = some (m.loser_age.getD 25) ∧
        fval (X2row m) "p1_ht" = some (m.loser_ht.getD 180) ∧
        fval (X2row m) "rank_diff" = (fval (X1row m) "rank_diff").map (fun x => -x) ∧
        fval (X2row m) "age_diff" = (fval (X1row m) "age_diff").map (fun x => -x) ∧
        fval (X2row m) "height_diff" = (fval (X1row m) "height_diff").map (fun x => -x) ∧
        fval (X2row m) "p1_rank" = fval (X1row m) "p2_rank" ∧
        fval (X2row m) "p2_rank" = fval (X1row m) "p1_rank" ∧
        fval (X2row m) "p1_age" = fval (X1row m) "p2_age" ∧
        fval (X2row m) "p2_age" = fval (X1row m) "p1_age" ∧
        fval (X2row m) "p1_ht" = fval (X1row m) "p2_ht" ∧
        fval (X2row m) "p2_ht" = fval (X1row m) "p1_ht" ∧
        fval (X2row m) "is_hard" = fval (X1row m) "is_hard" ∧
        fval (X2row m) "is_clay" = fval (X1row m) "is_clay" ∧
        fval (X2row m) "is_grass" = fval (X1row m) "is_grass" ∧
        fval (X2row m) "is_grand_slam" = fval (X1row m) "is_grand_slam" ∧
        fval (X2row m) "is_masters" = fval (X1row m) "is_masters" := by
  have hX : (prepare_for_ml df).1 =
      df.map (fun r => X1row (processRow (batchMedians df) r)) ++
        df.map (fun r => X2row (processRow (batchMedians df) r)) := by
    simp [prepare_for_ml, List.map_map]
    rfl
  have hY : (prepare_for_ml df).2 =
      List.replicate df.length 1 ++ List.replicate df.length 0 := by
    simp [prepare_for_ml]
  refine ⟨?_, ?_, ?_⟩
  · rw [hX]
    simp [Nat.two_mul]
  · rw [hY]
    simp [Nat.two_mul]
  · intro i hi
    refine ⟨processRow (batchMedians df) df[i], ?_, ?_, ?_, ?_,
      rfl, rfl, rfl, rfl, rfl, rfl, rfl, rfl, rfl, rfl, rfl, rfl, rfl, rfl, rfl,
      rfl, rfl, rfl, rfl, rfl⟩
    · rw [hX, List.getElem?_append_left (by simpa using hi)]
      simp [List.getElem?_map, List.getElem?_eq_getElem hi]
    · rw [hX, List.getElem?_append_right (by simp)]
      simp [List.getElem?_map, List.getElem?_eq_getElem hi]
    · rw [hY, List.getElem?_append_left (by simpa using hi)]
      simp [List.getElem?_replicate, hi]
    · rw [hY, List.getElem?_append_right (by simp)]
      simp [List.getElem?_replicate, hi]

/-- A fully-populated sample match for the C1 witness. -/
def c1Row : MatchRow :=
  { winner_name := some "Sinner", loser_name := some "Medvedev",
    winner_rank := some 1, loser_rank := some 5,
    winner_age := some 23, loser_age := some 28,
    winner_ht := some 191, loser_ht := some 198,
    winner_hand := some "R", loser_hand := some "R",
    surface := some "Hard", tourney_level := some "M" }

/-- Witness for C1 on the one-match batch `[c1Row]` at index 0. -/
theorem c1_symmetric_augmentation_witness :
    ∃ m : MatchRow,
      (prepare_for_ml [c1Row]).1[0]? = some (X1row m) ∧
      (prepare_for_ml [c1Row]).1[1 + 0]? = some (X2row m) ∧
      (prepare_for_ml [c1Row]).2[0]? = some 1 ∧
      (prepare_for_ml [c1Row]).2[1 + 0]? = some 0 ∧
      fval (X1row m) "p1_rank" = some (m.winner_rank.getD 9999) ∧
      fval (X1row m) "p1_age" = some (m.winner_age.getD 25) ∧
      fval (X1row m) "p1_ht" = some (m.winner_ht.getD 180) ∧
      fval (X2row m) "p1_rank" = some (m.loser_rank.getD 9999) ∧
      fval (X2row m) "p1_age" = some (m.loser_age.getD 25) ∧
      fval (X2row m) "p1_ht" = some (m.loser_ht.getD 180) ∧
      fval (X2row m) "rank_diff" = (fval (X1row m) "rank_diff").map (fun x => -x) ∧
      fval (X2row m) "age_diff" = (fval (X1row m) "age_diff").map (fun x => -x) ∧
      fval (X2row m) "height_diff" = (fval (X1row m) "height_diff").map (fun x => -x) ∧
      fval (X2row m) "p1_rank" = fval (X1row m) "p2_rank" ∧
      fval (X2row m) "p2_rank" = fval (X1row m) "p1_rank" ∧
      fval (X2row m) "p1_age" = fval (X1row m) "p2_age" ∧
      fval (X2row m) "p2_age" = fval (X1row m) "p1_age" ∧
      fval (X2row m) "p1_ht" = fval (X1row m) "p2_ht" ∧
      fval (X2row m) "p2_ht" = fval (X1row m) "p1_ht" ∧
      fval (X2row m) "is_hard" = fval (X1row m) "is_hard" ∧
      fval (X2row m) "is_clay" = fval (X1row m) "is_clay" ∧
      fval (X2row m) "is_grass" = fval (X1row m) "is_grass" ∧
      fval (X2row m) "is_grand_slam" = fval (X1row m) "is_grand_slam" ∧
      fval (X2row m) "is_masters" = fval (X1row m) "is_masters" :=
  (c1_symmetric_augmentation [c1Row]).2.2 0 (by decide)

/-- Claim C6, counterexample. A batch whose only row misses every numeric
attribute: the normalizer keeps the row, but the missing age is *not*
replaced by anything — the all-missing column's median does not exist
(pandas yields NaN and `fillna(NaN)` is a no-op), contradicting the claim
that every missing age/height is replaced by the batch median. -/
theorem c6_counterexample :
    ([({} : MatchRow)].map (·.winner_age) = [none]) ∧
    (clean_matches [({} : MatchRow)]).length = 1 ∧
    ((clean_matches [({} : MatchRow)]).map (·.winner_age) = [none]) :=
  ⟨rfl, rfl, rfl⟩

/-- Claim C6, amended. The normalizer keeps every row (same row count, no row
dropped for missing numeric fields); every missing rank becomes the sentinel
9999; every missing age/height becomes the median of its column over the
entire current batch whenever that column has at least one present value
(an all-missing column stays missing); every missing hand becomes the
placeholder `"U"`, distinct from `"R"`/`"L"`. -/
theorem c6_normalizer (df : List MatchRow) (i : ℕ) (hi : i < df.length) :
    (clean_matches df).length = df.length ∧
    ∃ c : MatchRow, (clean_matches df)[i]? = some c ∧
      (df[i].winner_rank = none → c.winner_rank = some 9999) ∧
      (df[i].loser_rank = none → c.loser_rank = some 9999) ∧
      (df[i].winner_age = none → c.winner_age = colMedian df (·.winner_age)) ∧
      (df[i].loser_age = none → c.loser_age = colMedian df (·.loser_age)) ∧
      (df[i].winner_ht = none → c.winner_ht = colMedian df (·.winner_ht)) ∧
      (df[i].loser_ht = none → c.loser_ht = colMedian df (·.loser_ht)) ∧
      (df[i].winner_hand = none → c.winner_hand = some "U") ∧
      (df[i].loser_hand = none → c.loser_hand = some "U") ∧
      "U" ≠ "R" ∧ "U" ≠ "L" := by
  refine ⟨List.length_map _ _, cleanRow (batchMedians df) df[i], ?_,
    ?_, ?_, ?_, ?_, ?_, ?_, ?_, ?_, by decide, by decide⟩
  · simp [clean_matches, List.getElem?_map, List.getElem?_eq_getElem hi]
  all_goals intro h
  · simp [cleanRow, h]
    decide
  · simp [cleanRow, h]
    decide
  · simp [cleanRow, h, fillna, batchMedians]
  · simp [cleanRow, h, fillna, batchMedians]
  · simp [cleanRow, h, fillna, batchMedians]
  · simp [cleanRow, h, fillna, batchMedians]
  · simp [cleanRow, h]
    decide
  · simp [cleanRow, h]
    decide

/-- A two-row batch for the C6 witness: row 0 misses rank, age, height and
hand; row 1 supplies the column values the medians are computed from. -/
def c6Batch : List MatchRow :=
  [{},
   { winner_rank := some 4, loser_rank := some 9,
     winner_age := some 30, loser_age := some 26,
     winner_ht := some 190, loser_ht := some 184,
     winner_hand := some "L", loser_hand := some "R",
     surface := some "Clay", tourney_level := some "G" }]

/-- Witness for the amended C6 on `c6Batch` at row 0. -/
theorem c6_normalizer_witness :
    (clean_matches c6Batch).length = c6Batch.length ∧
    ∃ c : MatchRow, (clean_matches c6Batch)[0]? = some c ∧
      (c6Batch[0].winner_rank = none → c.winner_rank = some 9999) ∧
      (c6Batch[0].loser_rank = none → c.loser_rank = some 9999) ∧
      (c6Batch[0].winner_age = none → c.winner_age = colMedian c6Batch (·.winner_age)) ∧
      (c6Batch[0].loser_age = none → c.loser_age = colMedian c6Batch (·.loser_age)) ∧
      (c6Batch[0].winner_ht = none → c.winner_ht = colMedian c6Batch (·.winner_ht)) ∧
      (c6Batch[0].loser_ht = none → c.loser_ht = colMedian c6Batch (·.loser_ht)) ∧
      (c6Batch[0].winner_hand = none → c.winner_hand = some "U") ∧
      (c6Batch[0].loser_hand = none → c.loser_hand = some "U") ∧
      "U" ≠ "R" ∧ "U" ≠ "L" :=
  c6_normalizer c6Batch 0 (by decide)

end SportTennis
